import Mathlib

/-!
libinfinity: per-user causal state, communication groups and two widgets.

A shallow embedding of `libinfinity/adopted/inf-adopted-user.c` together with
the state vector and request log it is built on, of the certificate dialog
(`libinfgtk/inf-gtk-certificate-dialog.c`), of the browser view
(`libinfgtk/inf-gtk-browser-view.c`) and of the communication group and method
interfaces.  Pointers that the C code tests against `NULL` are `Option`
values, `guint` values are natural numbers (reduced modulo 2^32 where a result
can leave the range), and a failed `g_assert` or a division by zero (which
abort the process) is the result `none` of the function that contains it.
-/

namespace Infinity

/-! ## State vectors -/

/-- Modelled from the spec: the state vector of inf-adopted-state-vector.c, a
file that is not among the sources.  "Mapping from user-id (positive integer)
to a non-negative component count.  Absent keys implicitly equal 0."  The
components are kept as (id, count) pairs. -/
structure InfAdoptedStateVector where
  components : List (Nat × Nat)
deriving DecidableEq, Repr

/-- Modelled from the spec: inf_adopted_state_vector_new of the absent
inf-adopted-state-vector.c, the vector without any component ("vector starts
at all-zero"). -/
def inf_adopted_state_vector_new : InfAdoptedStateVector :=
  ⟨[]⟩

/-- Modelled from the spec: the component lookup of a state vector value,
"`get(id) -> count` never fails (default 0)". -/
def InfAdoptedStateVector.get (vec : InfAdoptedStateVector) (id : Nat) : Nat :=
  (vec.components.lookup id).getD 0

/-- Modelled from the spec: inf_adopted_state_vector_get of the absent
inf-adopted-state-vector.c, called on a pointer: "`get(id) -> count` never
fails (default 0)"; a `NULL` vector has no component at all. -/
def inf_adopted_state_vector_get (vec : Option InfAdoptedStateVector) (id : Nat) : Nat :=
  match vec with
  | none => 0
  | some v => v.get id

/-! ## Requests and request logs (data only; operations further down) -/

/-- Modelled from the spec: the kind of a request, "kind ∈ {Do, Undo, Redo}". -/
inductive RequestKind where
  | Do
  | Undo
  | Redo
deriving DecidableEq, Repr

/-- Modelled from the spec: a request of the absent inf-adopted-request.c:
"author (user id), vector (the issuer's StateVector value before this request
was counted), kind, payload (opaque)". -/
structure InfAdoptedRequest where
  author : Nat
  vector : InfAdoptedStateVector
  kind : RequestKind
  payload : Nat
deriving DecidableEq, Repr

/-- Modelled from the spec: the request log of the absent
inf-adopted-request-log.c: "per-user ... an append-only ordered sequence
indexed 0..N by the author's local sequence number", prunable from the front.
`entries` are the retained requests, the first of them has index `begin`. -/
structure InfAdoptedRequestLog where
  user_id : Nat
  begin : Nat
  entries : List InfAdoptedRequest
deriving DecidableEq, Repr

/-- Modelled from the spec: inf_adopted_request_log_new of the absent
inf-adopted-request-log.c, the empty log of the user `user_id`. -/
def inf_adopted_request_log_new (user_id : Nat) : InfAdoptedRequestLog :=
  ⟨user_id, 0, []⟩

/-- Modelled from the spec: inf_adopted_request_log_get_user_id of the absent
inf-adopted-request-log.c, the user the log belongs to. -/
def inf_adopted_request_log_get_user_id (log : InfAdoptedRequestLog) : Nat :=
  log.user_id

/-! ## InfAdoptedUser -/

/-- The instance data of an `InfAdoptedUser`: the `id` of the `InfUser` parent
and the two fields of `InfAdoptedUserPrivate`. -/
structure InfAdoptedUser where
  id : Nat
  vector : Option InfAdoptedStateVector
  log : Option InfAdoptedRequestLog
deriving DecidableEq, Repr

/-- Modelled from the spec: inf_user_get_id of the absent inf-user.c, the
participant identity the user is bound to. -/
def inf_user_get_id (user : InfAdoptedUser) : Nat :=
  user.id

/-- `PROP_VECTOR` of the property enumeration (`PROP_0` is 0). -/
def PROP_VECTOR : Nat := 1

/-- `PROP_REQUEST_LOG` of the property enumeration. -/
def PROP_REQUEST_LOG : Nat := 2

/-- A `GValue` as the property setter reads it: a boxed state vector or an
object pointer to a request log, either of which may be `NULL`. -/
inductive GValue where
  | boxed (vec : Option InfAdoptedStateVector)
  | object (log : Option InfAdoptedRequestLog)
deriving DecidableEq, Repr

/-- `g_value_dup_boxed`: a copy of the boxed value, `NULL` for a value that
holds no boxed vector. -/
def g_value_dup_boxed : GValue → Option InfAdoptedStateVector
  | .boxed vec => vec
  | .object _ => none

/-- `g_value_get_object`: the object held, `NULL` for a value that holds no
object. -/
def g_value_get_object : GValue → Option InfAdoptedRequestLog
  | .object log => log
  | .boxed _ => none

/-- `inf_adopted_user_init`: a new state vector, no log. -/
def inf_adopted_user_init (user : InfAdoptedUser) : InfAdoptedUser :=
  { user with vector := some inf_adopted_state_vector_new, log := none }

/-- `inf_adopted_user_constructed`: after the parent's `constructed`, the log
field is assigned a new request log for the user's id. -/
def inf_adopted_user_constructed (user : InfAdoptedUser) : InfAdoptedUser :=
  { user with log := some (inf_adopted_request_log_new (inf_user_get_id user)) }

/-- `inf_adopted_user_set_property`; `none` when one of its assertions fails. -/
def inf_adopted_user_set_property (user : InfAdoptedUser) (prop_id : Nat) (value : GValue) :
    Option InfAdoptedUser :=
  if prop_id = PROP_VECTOR then
    some { user with vector := g_value_dup_boxed value }
  else if prop_id = PROP_REQUEST_LOG then
    if user.log ≠ none then none
    else
      match g_value_get_object value with
      | some log =>
        if inf_adopted_request_log_get_user_id log = inf_user_get_id user then
          some { user with log := some log }
        else none
      | none => some user
  else
    some user

/-- Construction of an `InfAdoptedUser` in the order GObject performs it: the
instance initialiser runs on the instance whose `InfUser` id is `id`, then the
construct-only "request-log" property is set (to `NULL` when the caller
supplies none), then `constructed` runs.  `none` when an assertion fails on
the way. -/
def g_object_new_adopted_user (id : Nat) (request_log : Option InfAdoptedRequestLog) :
    Option InfAdoptedUser :=
  (inf_adopted_user_set_property (inf_adopted_user_init ⟨id, none, none⟩)
    PROP_REQUEST_LOG (.object request_log)).map inf_adopted_user_constructed

/-- `inf_adopted_user_get_component`. -/
def inf_adopted_user_get_component (user : InfAdoptedUser) (id : Nat) : Nat :=
  if id = 0 then 0
  else inf_adopted_state_vector_get user.vector id

/-- `inf_adopted_user_get_vector`. -/
def inf_adopted_user_get_vector (user : InfAdoptedUser) : Option InfAdoptedStateVector :=
  user.vector

/-- `inf_adopted_user_set_vector`: nothing happens for a `NULL` vector. -/
def inf_adopted_user_set_vector (user : InfAdoptedUser) (vec : Option InfAdoptedStateVector) :
    InfAdoptedUser :=
  match vec with
  | none => user
  | some v => { user with vector := some v }

/-- `inf_adopted_user_get_request_log`. -/
def inf_adopted_user_get_request_log (user : InfAdoptedUser) : Option InfAdoptedRequestLog :=
  user.log

/-! ## The causal order of state vectors -/

/-- Modelled from the spec: the four results of `compare` on state vectors of
the absent inf-adopted-state-vector.c, "compare(A,B) -> {less, greater, equal,
concurrent}". -/
inductive VectorOrdering where
  | less
  | greater
  | equal
  | concurrent
deriving DecidableEq, Repr

/-- Modelled from the spec: the test "for every user-id, A[id] ≤ B[id]" of the
absent inf-adopted-state-vector.c.  Only the ids that occur in `a` have to be
looked at, an id absent from `a` has component 0 there. -/
def InfAdoptedStateVector.leb (a b : InfAdoptedStateVector) : Bool :=
  a.components.all (fun c => decide (a.get c.1 ≤ b.get c.1))

/-- Modelled from the spec: `compare` of the absent
inf-adopted-state-vector.c, "implements the partial order above": "A ≤ B iff
for every user-id, A[id] ≤ B[id]; two vectors are concurrent if neither ≤ the
other". -/
def InfAdoptedStateVector.compare (a b : InfAdoptedStateVector) : VectorOrdering :=
  match a.leb b, b.leb a with
  | true, true => .equal
  | true, false => .less
  | false, true => .greater
  | false, false => .concurrent

/-- The relation `A ≤ B` that `compare` induces: the result is `less` or
`equal`. -/
def InfAdoptedStateVector.le (a b : InfAdoptedStateVector) : Prop :=
  a.compare b = .less ∨ a.compare b = .equal

instance (a b : InfAdoptedStateVector) : Decidable (a.le b) := by
  unfold InfAdoptedStateVector.le
  exact inferInstance

/-! ## Request log operations -/

/-- Modelled from the spec: the errors of the request log, `SequenceGapError`
and `NotAvailableError`; the latter tells a pruned entry from one not yet
appended ("distinguish the two"). -/
inductive LogError where
  | SequenceGapError
  | NotAvailableError (pruned : Bool)
deriving DecidableEq, Repr

/-- Modelled from the spec: the index of a request in its author's log, "the
author's local sequence number": the author's own component of the vector the
request was issued at ("log index i holds exactly the request that incremented
the author's own component from i to i+1"). -/
def InfAdoptedRequest.index (request : InfAdoptedRequest) : Nat :=
  request.vector.get request.author

/-- Modelled from the spec: the index the next appended request must have, one
past the last entry of the log. -/
def InfAdoptedRequestLog.next_index (log : InfAdoptedRequestLog) : Nat :=
  log.begin + log.entries.length

/-- Modelled from the spec: `append(request)` of the absent
inf-adopted-request-log.c: "fails with SequenceGapError if request is not the
immediate next index for its author".  The log is "per-user ... keyed by the
issuing user's local sequence number", so a request is the next one of the log
only if its author is the log's user and its index is the log's next index.
Returns the log after the call and the outcome. -/
def InfAdoptedRequestLog.append (log : InfAdoptedRequestLog) (request : InfAdoptedRequest) :
    InfAdoptedRequestLog × Except LogError Unit :=
  if request.author = log.user_id ∧ request.index = log.next_index then
    ({ log with entries := log.entries ++ [request] }, .ok ())
  else
    (log, .error .SequenceGapError)

/-- Modelled from the spec: `get(index) -> Request` of the absent
inf-adopted-request-log.c: "fails with NotAvailableError if pruned or not yet
appended". -/
def InfAdoptedRequestLog.get (log : InfAdoptedRequestLog) (index : Nat) :
    Except LogError InfAdoptedRequest :=
  if index < log.begin then .error (.NotAvailableError true)
  else
    match log.entries[index - log.begin]? with
    | some request => .ok request
    | none => .error (.NotAvailableError false)

/-- Modelled from the spec: `prune(before_index)` of the absent
inf-adopted-request-log.c: "discards entries strictly below before_index;
irreversible".  Entries not yet appended are not affected. -/
def InfAdoptedRequestLog.prune (log : InfAdoptedRequestLog) (before_index : Nat) :
    InfAdoptedRequestLog :=
  { log with
    begin := log.begin + min (before_index - log.begin) log.entries.length
    entries := log.entries.drop (before_index - log.begin) }

/-! ## Sample values -/

/-- The vector `{1:5}`. -/
def vector_1_5 : InfAdoptedStateVector := ⟨[(1, 5)]⟩

/-- The vector `{1:3}`. -/
def vector_1_3 : InfAdoptedStateVector := ⟨[(1, 3)]⟩

/-- The first request of user 1, issued at the empty vector. -/
def request_1_0 : InfAdoptedRequest := ⟨1, ⟨[]⟩, .Do, 7⟩

/-- The second request of user 1, issued at `{1:1}`. -/
def request_1_1 : InfAdoptedRequest := ⟨1, ⟨[(1, 1)]⟩, .Do, 8⟩

/-- The log of user 1 that holds the first request of user 1. -/
def log_1_one_entry : InfAdoptedRequestLog := ⟨1, 0, [request_1_0]⟩

/-- A user with id 1 at vector `{1:5}` holding an empty log. -/
def user_1_at_5 : InfAdoptedUser := ⟨1, some vector_1_5, some (inf_adopted_request_log_new 1)⟩

/-! ## Machine integers -/

/-- The value of a signed integer type of `bits` bits that is congruent to `x`
modulo `2 ^ bits`: what a conversion to that type, or an arithmetic result
that has left its range, wraps to. -/
def wrap_signed (bits : Nat) (x : Int) : Int :=
  (x + 2 ^ (bits - 1)) % 2 ^ bits - 2 ^ (bits - 1)

/-- Conversion of a `guint` to `gint` (32 bits), as in `return i` from a
function that returns `gint`. -/
def to_gint (x : Nat) : Int :=
  wrap_signed 32 (x : Int)

/-! ## InfGtkCertificateDialog -/

/-- The constants of the enumeration `InfCertificateVerifyFlags`, which is
declared in a header that is not among the sources.  They are a parameter of
the embedding. -/
structure InfCertificateVerifyFlags where
  HOSTNAME_MISMATCH : Nat
  ISSUER_NOT_KNOWN : Nat
  NOT_PINNED : Nat
deriving DecidableEq, Repr

/-- The representation of the system type `time_t`: a signed integer of 32 or
of 64 bits.  It decides in which type `expiration_time - TOLERANCE` is
computed, the tolerance being an `unsigned int` of 32 bits. -/
inductive TimeRepresentation where
  | signed32
  | signed64
deriving DecidableEq, Repr

/-- `INF_GTK_CERTIFICATE_DIALOG_EXPIRATION_TOLERANCE`, 30 days in seconds. -/
def INF_GTK_CERTIFICATE_DIALOG_EXPIRATION_TOLERANCE : Nat :=
  30 * 24 * 3600

/-- The condition of `inf_gtk_certificate_dialog_renew_info` on the pinned
certificate,
`expiration_time != (time_t)(-1) && time(NULL) > expiration_time - TOLERANCE`.
With a 64 bit `time_t` the tolerance is converted to `time_t` and the
difference is a signed 64 bit value; with a 32 bit `time_t` both operands of
the subtraction, and then of the comparison, are converted to unsigned 32
bit. -/
def pinned_certificate_expires_soon (repr : TimeRepresentation) (now expiration_time : Int) :
    Bool :=
  match repr with
  | .signed64 =>
    decide (expiration_time ≠ -1) &&
      decide (now > wrap_signed 64
        (expiration_time - (INF_GTK_CERTIFICATE_DIALOG_EXPIRATION_TOLERANCE : Int)))
  | .signed32 =>
    decide (expiration_time ≠ -1) &&
      decide (now % 2 ^ 32 >
        (expiration_time - (INF_GTK_CERTIFICATE_DIALOG_EXPIRATION_TOLERANCE : Int)) % 2 ^ 32)

/-- The fields of `InfGtkCertificateDialogPrivate` that
`inf_gtk_certificate_dialog_renew_info` reads and writes.  Of the pinned
certificate only the result of `gnutls_x509_crt_get_expiration_time` is kept,
of the chain only the result of `inf_cert_util_get_hostname` on its own
certificate; `caption` and `info` are the contents of the two labels. -/
structure InfGtkCertificateDialog where
  verify_flags : Nat
  hostname : Option String
  pinned_expiration_time : Int
  own_certificate_hostname : String
  caption : Option String
  info : Option String
deriving DecidableEq, Repr

/-- The text of the bold line for a pinned certificate close to expiration. -/
def new_certificate_ctext : String :=
  "The host has presented a new certificate."

/-- The text of the bold line for an unexpected certificate. -/
def unexpected_certificate_ctext : String :=
  "The host has presented an unexpected certificate!"

/-- The explanation that follows `new_certificate_ctext`. -/
def previous_expired_text : String :=
  "Its previous certificate has expired or is closed to expiration. Please make sure that you trust the new certificate."

/-- The explanation that follows `unexpected_certificate_ctext`. -/
def eavesdropping_text : String :=
  "This means someone might be eavesdropping on the connection. Please only continue if you expected this message, otherwise please contact the server administrator."

/-- The first paragraph when the certificate is not a changed pinned one. -/
def cannot_verify_text : String :=
  "The server certificate cannot be verified automatically. Please make sure that you trust this host before proceeding."

/-- The message of `INF_CERTIFICATE_VERIFY_ISSUER_NOT_KNOWN`. -/
def issuer_not_known_text : String :=
  "The issuer of the certificate is not known."

/-- The message of `INF_CERTIFICATE_VERIFY_HOSTNAME_MISMATCH`, the format
string filled with the host name and the name the certificate is issued to. -/
def hostname_mismatch_text (hostname issued_to : String) : String :=
  "The hostname of the server, \"" ++ hostname ++
    "\", does not match the hostname the certificate is issued to, \"" ++ issued_to ++ "\"."

/-- `g_markup_printf_escaped("<b>%s</b>", ctext)` for a text without markup
characters. -/
def bold_markup (ctext : String) : String :=
  "<b>" ++ ctext ++ "</b>"

/-- The whole info text of the branch for a pinned certificate that is close
to expiration. -/
def new_certificate_info : String :=
  "" ++ bold_markup new_certificate_ctext ++ " " ++ previous_expired_text

/-- The whole info text of the branch for an unexpected certificate. -/
def unexpected_certificate_info : String :=
  "" ++ bold_markup unexpected_certificate_ctext ++ " " ++ eavesdropping_text

/-- The paragraph separator that is appended when the text is not empty. -/
def append_separator (info_text : String) : String :=
  if info_text.length > 0 then info_text ++ "\n\n" else info_text

/-- `inf_gtk_certificate_dialog_renew_info`: the caption and the info label
after the call.  `now` is the result of `time(NULL)`. -/
def inf_gtk_certificate_dialog_renew_info (flags : InfCertificateVerifyFlags)
    (repr : TimeRepresentation) (now : Int) (dialog : InfGtkCertificateDialog) :
    InfGtkCertificateDialog :=
  match dialog.hostname with
  | some hostname =>
    if dialog.verify_flags ≠ 0 then
      let caption := "The connection to host \"" ++ hostname ++ "\" is not considered secure"
      let info_text :=
        if dialog.verify_flags &&& flags.NOT_PINNED ≠ 0 then
          if pinned_certificate_expires_soon repr now dialog.pinned_expiration_time then
            new_certificate_info
          else
            unexpected_certificate_info
        else
          let text0 := "" ++ cannot_verify_text
          let text1 :=
            if dialog.verify_flags &&& flags.ISSUER_NOT_KNOWN ≠ 0 then
              append_separator text0 ++ issuer_not_known_text
            else text0
          if dialog.verify_flags &&& flags.HOSTNAME_MISMATCH ≠ 0 then
            append_separator text1 ++
              hostname_mismatch_text hostname dialog.own_certificate_hostname
          else text1
      { dialog with caption := some caption, info := some info_text }
    else
      { dialog with caption := none, info := none }
  | none => { dialog with caption := none, info := none }

/-- The text `message` occurs in `text`. -/
def contains_text (text message : String) : Prop :=
  message.data <:+: text.data

instance (text message : String) : Decidable (contains_text text message) := by
  unfold contains_text
  exact inferInstance

/-- Some label text is set and `message` occurs in it. -/
def label_contains (label : Option String) (message : String) : Prop :=
  match label with
  | some text => contains_text text message
  | none => False

instance (label : Option String) (message : String) : Decidable (label_contains label message) := by
  unfold label_contains
  cases label <;> exact inferInstance

/-- The time values for which `expiration_time - TOLERANCE` and the comparison
with `time(NULL)` stay in the range of the type they are computed in: with a
64 bit `time_t` the difference is not below the least `time_t`; with a 32 bit
`time_t`, where both are taken as unsigned, the difference and the current
time are not negative. -/
def expiry_difference_representable (repr : TimeRepresentation) (now expiration_time : Int) :
    Prop :=
  match repr with
  | .signed64 =>
    -(2 : Int) ^ 63 + (INF_GTK_CERTIFICATE_DIALOG_EXPIRATION_TOLERANCE : Int) ≤ expiration_time ∧
      expiration_time < 2 ^ 63
  | .signed32 =>
    (INF_GTK_CERTIFICATE_DIALOG_EXPIRATION_TOLERANCE : Int) ≤ expiration_time ∧
      expiration_time < 2 ^ 31 ∧ 0 ≤ now ∧ now < 2 ^ 31

instance (repr : TimeRepresentation) (now expiration_time : Int) :
    Decidable (expiry_difference_representable repr now expiration_time) := by
  unfold expiry_difference_representable
  cases repr <;> exact inferInstance

/-- Sample values of the flag constants: three different bits. -/
def sample_verify_flags : InfCertificateVerifyFlags :=
  ⟨1, 2, 4⟩

/-! ## InfGtkBrowserView: tracked objects -/

/-- An `InfGtkBrowserViewObject`: the identity of the tracked `GObject` (a
browser or an explore request) and, of its `GtkTreeRowReference`, what
`gtk_tree_row_reference_valid` answers once `gtk_tree_row_reference_deleted`
has run for the deleted row. -/
structure InfGtkBrowserViewObject where
  object : Nat
  reference_valid : Bool
deriving DecidableEq, Repr

/-- The two arrays of `InfGtkBrowserViewPrivate`. -/
structure InfGtkBrowserView where
  browsers : List InfGtkBrowserViewObject
  explore_requests : List InfGtkBrowserViewObject
deriving DecidableEq, Repr

/-- `g_array_remove_index_fast`: the last element takes the place of the
removed one and the array gets one shorter; nothing happens for an index
outside the array. -/
def g_array_remove_index_fast (array : List InfGtkBrowserViewObject) (index : Nat) :
    List InfGtkBrowserViewObject :=
  if index < array.length then
    match array.getLast? with
    | some last => (array.set index last).dropLast
    | none => array
  else array

/-- `inf_gtk_browser_view_browser_removed`, on the array of browsers. -/
def inf_gtk_browser_view_browser_removed (browsers : List InfGtkBrowserViewObject)
    (index : Nat) : List InfGtkBrowserViewObject :=
  g_array_remove_index_fast browsers index

/-- `inf_gtk_browser_view_explore_request_removed`, on the array of explore
requests. -/
def inf_gtk_browser_view_explore_request_removed
    (explore_requests : List InfGtkBrowserViewObject) (i : Nat) :
    List InfGtkBrowserViewObject :=
  g_array_remove_index_fast explore_requests i

/-- The loop `for(i = 0; i < priv->browsers->len; ++ i)` of
`inf_gtk_browser_view_row_deleted_cb` from the index `i` on: a browser whose
reference is not valid is removed, then `i` is incremented in either case. -/
def row_deleted_browsers_loop (browsers : List InfGtkBrowserViewObject) (i : Nat) :
    List InfGtkBrowserViewObject :=
  if h : i < browsers.length then
    if (browsers[i]).reference_valid = false then
      row_deleted_browsers_loop (inf_gtk_browser_view_browser_removed browsers i) (i + 1)
    else
      row_deleted_browsers_loop browsers (i + 1)
  else browsers
termination_by browsers.length - i
decreasing_by
  · have hlen : (inf_gtk_browser_view_browser_removed browsers i).length
        = browsers.length - 1 := by
      unfold inf_gtk_browser_view_browser_removed g_array_remove_index_fast
      rw [if_pos h]
      cases hl : browsers.getLast? with
      | none =>
        rw [List.getLast?_eq_none_iff] at hl
        simp [hl] at h
      | some last => simp
    rw [hlen]
    omega
  · omega

/-- The loop `for(i = 0; i < priv->explore_requests->len; ++ i)` of
`inf_gtk_browser_view_row_deleted_cb` from the index `i` on: an explore
request whose reference is not valid is removed, then `i` is incremented in
either case. -/
def row_deleted_explore_requests_loop (explore_requests : List InfGtkBrowserViewObject)
    (i : Nat) : List InfGtkBrowserViewObject :=
  if h : i < explore_requests.length then
    if (explore_requests[i]).reference_valid = false then
      row_deleted_explore_requests_loop
        (inf_gtk_browser_view_explore_request_removed explore_requests i) (i + 1)
    else
      row_deleted_explore_requests_loop explore_requests (i + 1)
  else explore_requests
termination_by explore_requests.length - i
decreasing_by
  · have hlen : (inf_gtk_browser_view_explore_request_removed explore_requests i).length
        = explore_requests.length - 1 := by
      unfold inf_gtk_browser_view_explore_request_removed g_array_remove_index_fast
      rw [if_pos h]
      cases hl : explore_requests.getLast? with
      | none =>
        rw [List.getLast?_eq_none_iff] at hl
        simp [hl] at h
      | some last => simp
    rw [hlen]
    omega
  · omega

/-- `inf_gtk_browser_view_row_deleted_cb`; `depth` is the result of
`gtk_tree_path_get_depth(path)`. -/
def inf_gtk_browser_view_row_deleted_cb (view : InfGtkBrowserView) (depth : Nat) :
    InfGtkBrowserView :=
  let browsers :=
    if depth = 1 then row_deleted_browsers_loop view.browsers 0
    else view.browsers
  { browsers := browsers
    explore_requests := row_deleted_explore_requests_loop view.explore_requests 0 }

/-- The loop of `inf_gtk_browser_view_explore_request_find` over the entries
from index `i` on, `rest` being those entries. -/
def explore_request_find_from (rest : List InfGtkBrowserViewObject) (request : Nat) (i : Nat) :
    Int :=
  match rest with
  | [] => -1
  | object :: tail =>
    if object.object = request then to_gint i
    else explore_request_find_from tail request (i + 1)

/-- `inf_gtk_browser_view_explore_request_find`. -/
def inf_gtk_browser_view_explore_request_find (view : InfGtkBrowserView) (request : Nat) : Int :=
  explore_request_find_from view.explore_requests request 0

/-! ## InfGtkBrowserView: cell data functions -/

/-- What the data functions read of an `InfcExploreRequest`: the results of
`infc_explore_request_get_finished` and `infc_explore_request_get_initiated`
and the `guint` properties "current" and "total". -/
structure InfcExploreRequest where
  finished : Bool
  initiated : Bool
  current : Nat
  total : Nat
deriving DecidableEq, Repr

/-- What the data functions read of the browser node of a row: the result of
`infc_browser_iter_is_subdirectory` and of
`infc_browser_iter_get_explore_request` (`NULL` is `none`). -/
structure InfcBrowserNode where
  is_subdirectory : Bool
  explore_request : Option InfcExploreRequest
deriving DecidableEq, Repr

/-- The values of `InfGtkBrowserModelStatus` that the `switch` of
`inf_gtk_browser_view_status_data_func` names. -/
inductive InfGtkBrowserModelStatus where
  | DISCOVERED
  | RESOLVING
  | CONNECTING
  | CONNECTED
  | ERROR
deriving DecidableEq, Repr

/-- The state of a row of the browser model as the data functions read it:
whether `gtk_tree_model_iter_parent` finds a parent, the browser column with
the node column (`none` for a `NULL` browser), the status column and the
message of the error column (`none` for a `NULL` error). -/
structure BrowserModelRow where
  has_parent : Bool
  browser : Option InfcBrowserNode
  status : InfGtkBrowserModelStatus
  error : Option String
deriving DecidableEq, Repr

/-- The properties of the progress renderer that the data function sets. -/
structure ProgressRenderer where
  visible : Bool
  value : Int
  text : String
deriving DecidableEq, Repr

/-- The properties of the status text renderer that the data function sets. -/
structure StatusRenderer where
  visible : Bool
  text : String
  foreground : String
deriving DecidableEq, Repr

/-- The `guint` expression `current * 100 / total`; `none` for a division by
zero. -/
def exploration_percentage (current total : Nat) : Option Nat :=
  if total % 2 ^ 32 = 0 then none
  else some ((current * 100) % 2 ^ 32 / (total % 2 ^ 32))

/-- `inf_gtk_browser_view_progress_data_func`: the renderer after the call,
`none` when the call divides by zero. -/
def inf_gtk_browser_view_progress_data_func (renderer : ProgressRenderer)
    (row : BrowserModelRow) : Option ProgressRenderer :=
  let hidden : Option ProgressRenderer := some { renderer with visible := false }
  match row.browser with
  | some node =>
    if node.is_subdirectory then
      match node.explore_request with
      | some request =>
        if request.finished = false then
          let counts : Nat × Nat :=
            if request.initiated = false then (0, 1)
            else (request.current, request.total)
          match exploration_percentage counts.1 counts.2 with
          | some value => some { visible := true, value := to_gint value, text := "Exploring..." }
          | none => none
        else hidden
      | none => hidden
    else hidden
  | none => hidden

/-- `inf_gtk_browser_view_status_data_func`: the renderer after the call,
`none` when `g_assert(error != NULL)` fails. -/
def inf_gtk_browser_view_status_data_func (renderer : StatusRenderer)
    (row : BrowserModelRow) : Option StatusRenderer :=
  if row.has_parent then
    some { renderer with visible := false }
  else
    match row.status with
    | .DISCOVERED =>
      some { text := "Not connected", foreground := "black", visible := false }
    | .RESOLVING =>
      some { text := "Connecting...", foreground := "black", visible := true }
    | .CONNECTING =>
      some { text := "Connecting...", foreground := "black", visible := true }
    | .CONNECTED =>
      some { text := "Connected", foreground := "black", visible := false }
    | .ERROR =>
      match row.error with
      | some message => some { text := message, foreground := "#db1515", visible := true }
      | none => none

/-- The explore request of the row's node, when the row has a browser and the
node is a subdirectory whose request is not finished: the rows for which the
progress data function computes a percentage. -/
def BrowserModelRow.running_request (row : BrowserModelRow) : Option InfcExploreRequest :=
  match row.browser with
  | some node =>
    if node.is_subdirectory then
      match node.explore_request with
      | some request => if request.finished = false then some request else none
      | none => none
    else none
  | none => none

/-- A row whose directory is being explored: initiated, not finished, none of
the announced 0 nodes received yet. -/
def row_exploring_empty_directory : BrowserModelRow :=
  ⟨true, some ⟨true, some ⟨false, true, 0, 0⟩⟩, .CONNECTED, none⟩

/-- A row whose directory is being explored at 50000000 of 100000000 nodes. -/
def row_exploring_large_directory : BrowserModelRow :=
  ⟨true, some ⟨true, some ⟨false, true, 50000000, 100000000⟩⟩, .CONNECTED, none⟩

/-- A row whose directory is being explored at 1 of 3 nodes. -/
def row_exploring_one_of_three : BrowserModelRow :=
  ⟨true, some ⟨true, some ⟨false, true, 1, 3⟩⟩, .CONNECTED, none⟩

/-- A progress renderer before a data function ran. -/
def progress_renderer_initial : ProgressRenderer :=
  ⟨false, 0, ""⟩

/-! ## Communication groups and methods

Only the declarations of `inf-communication-group.h` and
`inf-communication-method.h` are among the sources; what the functions do is
modelled from the spec. -/

/-- Modelled from the spec: the propagation scope that `received` returns,
"`Local` (message concerned only this replica, no relay) or `Group` (message
must additionally be relayed to other members)"; the type
`InfCommunicationScope` is declared in a header that is not among the
sources. -/
inductive InfCommunicationScope where
  | Local
  | Group
deriving DecidableEq, Repr

/-- Modelled from the spec: the variants of a communication method, "Variants:
central (hub relay) and direct (full mesh)". -/
inductive MethodVariant where
  | Central
  | Direct
deriving DecidableEq, Repr

/-- Modelled from the spec: a message on its way, the XML content (opaque,
`xmlNodePtr` in the declarations) and whether it was sent to one member
(`Local`) or to the group (`Group`). -/
structure Message where
  xml : Nat
  scope : InfCommunicationScope
deriving DecidableEq, Repr

/-- Modelled from the spec: the state of an `InfCommunicationMethod` of the
absent method implementations: the member connections it tracks and, for each
connection, the messages queued but not yet sent and the messages in flight.
A connection (`InfXmlConnection*`) is a number. -/
structure InfCommunicationMethod where
  variant : MethodVariant
  members : List Nat
  queued : Nat → List Message
  in_flight : Nat → List Message

/-- Modelled from the spec: `isMember` of a method. -/
def inf_communication_method_is_member (method : InfCommunicationMethod) (connection : Nat) :
    Bool :=
  decide (connection ∈ method.members)

/-- Modelled from the spec: `cancelPending(connection)`, "drop all not-yet-sent
messages queued for a connection"; "no partial in-flight message is retracted,
only queued-but-not-yet-sent ones". -/
def inf_communication_method_cancel_messages (method : InfCommunicationMethod)
    (connection : Nat) : InfCommunicationMethod :=
  { method with queued := fun c => if c = connection then [] else method.queued c }

/-- Modelled from the spec: `addMember`, "update internal routing state"; a
member that is reintroduced is "a fresh Member (no memory of prior queued
state)". -/
def inf_communication_method_add_member (method : InfCommunicationMethod) (connection : Nat) :
    InfCommunicationMethod :=
  if connection ∈ method.members then method
  else
    { inf_communication_method_cancel_messages method connection with
      members := method.members ++ [connection] }

/-- Modelled from the spec: `removeMember`, "update internal routing state;
removeMember must also cancel pending sends". -/
def inf_communication_method_remove_member (method : InfCommunicationMethod)
    (connection : Nat) : InfCommunicationMethod :=
  { inf_communication_method_cancel_messages method connection with
    members := method.members.filter (fun c => c ≠ connection) }

/-- Modelled from the spec: `sendSingle(connection, message)`, the enqueue "for
exactly that member". -/
def inf_communication_method_send_single (method : InfCommunicationMethod) (connection : Nat)
    (xml : Nat) : InfCommunicationMethod :=
  if connection ∈ method.members then
    { method with
      queued := fun c =>
        if c = connection then method.queued c ++ [⟨xml, .Local⟩] else method.queued c }
  else method

/-- Modelled from the spec: `sendAll(exceptConnection, message)`, the enqueue
"for every member except the given one (or all, if none given)".  The
declaration of `send_all` in `inf-communication-method.h` has no parameter for
the connection to leave out, its description there ("to all group members,
except @except") and `inf_communication_group_send_group_message` have one. -/
def sendAll (method : InfCommunicationMethod) (except_connection : Option Nat) (xml : Nat) :
    InfCommunicationMethod :=
  { method with
    queued := fun c =>
      if c ∈ method.members ∧ some c ≠ except_connection then
        method.queued c ++ [⟨xml, .Group⟩]
      else method.queued c }

/-- Modelled from the spec: `inf_communication_method_send_all` as declared,
to all members. -/
def inf_communication_method_send_all (method : InfCommunicationMethod) (xml : Nat) :
    InfCommunicationMethod :=
  sendAll method none xml

/-- Modelled from the spec: `received(connection, message) -> Scope`: `Group`
"used by Central method when a hub forwards a client's broadcast to the
remaining star members; Direct method always returns Local since the sender
already reached every peer directly". -/
def inf_communication_method_received (method : InfCommunicationMethod) (_connection : Nat)
    (message : Message) : InfCommunicationScope :=
  match method.variant with
  | .Central => message.scope
  | .Direct => .Local

/-- Modelled from the spec: the `enqueued` callback, "fired when a message
transitions from queued to in-flight": the first queued message of the
connection is in flight. -/
def inf_communication_method_enqueued (method : InfCommunicationMethod) (connection : Nat) :
    InfCommunicationMethod :=
  match method.queued connection with
  | [] => method
  | message :: rest =>
    { method with
      queued := fun c => if c = connection then rest else method.queued c
      in_flight := fun c =>
        if c = connection then method.in_flight c ++ [message] else method.in_flight c }

/-- Modelled from the spec: the `sent` callback, "from in-flight to
acknowledged-sent": the first message in flight on the connection is done. -/
def inf_communication_method_sent (method : InfCommunicationMethod) (connection : Nat) :
    InfCommunicationMethod :=
  { method with
    in_flight := fun c =>
      if c = connection then (method.in_flight c).tail else method.in_flight c }

/-- Modelled from the spec: an `InfCommunicationGroup` of the absent
inf-communication-group.c: its name and its active method; "group membership
changes (add/remove) are always mirrored into the active Method". -/
structure InfCommunicationGroup where
  name : String
  method : InfCommunicationMethod

/-- Modelled from the spec: `isMember(connection)` of a group. -/
def inf_communication_group_is_member (group : InfCommunicationGroup) (connection : Nat) :
    Bool :=
  inf_communication_method_is_member group.method connection

/-- Modelled from the spec: `sendToMember(connection, message)`. -/
def inf_communication_group_send_message (group : InfCommunicationGroup) (connection : Nat)
    (xml : Nat) : InfCommunicationGroup :=
  { group with method := inf_communication_method_send_single group.method connection xml }

/-- Modelled from the spec: `sendToGroup(exceptConnection, message)`, "enqueue
for every member except the given one (or all, if none given)". -/
def inf_communication_group_send_group_message (group : InfCommunicationGroup)
    (except_connection : Option Nat) (xml : Nat) : InfCommunicationGroup :=
  { group with method := sendAll group.method except_connection xml }

/-- Modelled from the spec: `cancelPending(connection)` of a group. -/
def inf_communication_group_cancel_messages (group : InfCommunicationGroup) (connection : Nat) :
    InfCommunicationGroup :=
  { group with method := inf_communication_method_cancel_messages group.method connection }

/-- Modelled from the spec: removal of a member from a group, "forwarded
verbatim to the active Method". -/
def inf_communication_group_remove_member (group : InfCommunicationGroup) (connection : Nat) :
    InfCommunicationGroup :=
  { group with method := inf_communication_method_remove_member group.method connection }

/-- The hub A of the scenario: a central method with the member connections
B (2) and C (3), B's queue holding one message (5) not yet sent, C's queue one
message (6) not yet sent and one (4) in flight. -/
def hub_method : InfCommunicationMethod :=
  { variant := .Central
    members := [2, 3]
    queued := fun c => if c = 2 then [⟨5, .Local⟩] else if c = 3 then [⟨6, .Local⟩] else []
    in_flight := fun c => if c = 3 then [⟨4, .Local⟩] else [] }

/-- The member B of the scenario: a central method whose only connection is
the one to the hub A (1), nothing queued. -/
def spoke_method : InfCommunicationMethod :=
  { variant := .Central
    members := [1]
    queued := fun _ => []
    in_flight := fun _ => [] }

/-! ## Theorems: InfAdoptedUser -/

/-- C1: `inf_adopted_user_get_component` is a total function; for every id
other than 0 its result is the component of the user's current vector at that
id, which is 0 when the vector has no entry for the id, and for id 0 the
result is 0 whatever vector the user holds. -/
theorem get_component_is_vector_component (user : InfAdoptedUser) (id : Nat) :
    inf_adopted_user_get_component user id =
        (if id = 0 then 0 else inf_adopted_state_vector_get user.vector id) ∧
      inf_adopted_state_vector_get user.vector id =
        (match user.vector with
          | none => 0
          | some v => (v.components.lookup id).getD 0) ∧
      ∀ vec : Option InfAdoptedStateVector,
        inf_adopted_user_get_component { user with vector := vec } 0 = 0 := by
  refine ⟨rfl, ?_, fun vec => rfl⟩
  cases user.vector <;> rfl

/-- The user that construction yields, when it yields one: the new vector and a
new log for the id. -/
theorem constructed_user_eq (uid : Nat) (request_log : Option InfAdoptedRequestLog)
    (user : InfAdoptedUser) (h : g_object_new_adopted_user uid request_log = some user) :
    user = ⟨uid, some inf_adopted_state_vector_new, some (inf_adopted_request_log_new uid)⟩ := by
  cases request_log with
  | none =>
    simp [g_object_new_adopted_user, inf_adopted_user_set_property, PROP_VECTOR,
      PROP_REQUEST_LOG, inf_adopted_user_init, g_value_get_object,
      inf_adopted_user_constructed, inf_user_get_id] at h
    exact h.symm
  | some log =>
    by_cases hid : inf_adopted_request_log_get_user_id log = uid
    · simp [g_object_new_adopted_user, inf_adopted_user_set_property, PROP_VECTOR,
        PROP_REQUEST_LOG, inf_adopted_user_init, g_value_get_object,
        inf_adopted_user_constructed, inf_user_get_id, hid] at h
      exact h.symm
    · simp [g_object_new_adopted_user, inf_adopted_user_set_property, PROP_VECTOR,
        PROP_REQUEST_LOG, inf_adopted_user_init, g_value_get_object,
        inf_adopted_user_constructed, inf_user_get_id, hid] at h

/-- C2: a user that was constructed and whose vector was never set reports
component 0 for every id. -/
theorem fresh_user_component_zero (uid : Nat) (request_log : Option InfAdoptedRequestLog)
    (user : InfAdoptedUser) (h : g_object_new_adopted_user uid request_log = some user)
    (id : Nat) : inf_adopted_user_get_component user id = 0 := by
  have hv : user.vector = some inf_adopted_state_vector_new := by
    rw [constructed_user_eq uid request_log user h]
  unfold inf_adopted_user_get_component
  rw [hv]
  split
  · rfl
  · rfl

/-- Witness of C2: the user constructed for id 1 without a log exists and
reports 0 for id 1. -/
theorem fresh_user_component_zero_witness :
    g_object_new_adopted_user 1 none
        = some ⟨1, some inf_adopted_state_vector_new, some (inf_adopted_request_log_new 1)⟩ ∧
      inf_adopted_user_get_component
        ⟨1, some inf_adopted_state_vector_new, some (inf_adopted_request_log_new 1)⟩ 1 = 0 :=
  ⟨by decide, fresh_user_component_zero 1 none _ (by decide) 1⟩

/-- C3: after `inf_adopted_user_set_vector(user, vec)` with a vector that is
not `NULL`, `inf_adopted_user_get_vector` returns `vec` and the component at
every id other than 0 is the component of `vec`. -/
theorem set_vector_then_get (user : InfAdoptedUser) (vec : InfAdoptedStateVector) (id : Nat)
    (h : id ≠ 0) :
    inf_adopted_user_get_vector (inf_adopted_user_set_vector user (some vec)) = some vec ∧
      inf_adopted_user_get_component (inf_adopted_user_set_vector user (some vec)) id
        = vec.get id := by
  refine ⟨rfl, ?_⟩
  simp [inf_adopted_user_get_component, inf_adopted_user_set_vector,
    inf_adopted_state_vector_get, h]

/-- Witness of C3: user 1 at `{1:5}` is set to `{1:3}` and read at id 1. -/
theorem set_vector_then_get_witness :
    inf_adopted_user_get_vector (inf_adopted_user_set_vector user_1_at_5 (some vector_1_3))
        = some vector_1_3 ∧
      inf_adopted_user_get_component (inf_adopted_user_set_vector user_1_at_5 (some vector_1_3)) 1
        = vector_1_3.get 1 :=
  set_vector_then_get user_1_at_5 vector_1_3 1 (by decide)

/-- C4, the code at a failing input: user 1 is constructed with a supplied log
of user 1 that holds one request.  The property setter stores the supplied
log, `constructed` then replaces it, and the user that results holds a new
empty log and not the supplied one. -/
theorem constructed_replaces_supplied_log :
    inf_adopted_user_set_property (inf_adopted_user_init ⟨1, none, none⟩) PROP_REQUEST_LOG
        (.object (some log_1_one_entry))
        = some ⟨1, some inf_adopted_state_vector_new, some log_1_one_entry⟩ ∧
      inf_adopted_user_get_request_log
          (inf_adopted_user_constructed
            ⟨1, some inf_adopted_state_vector_new, some log_1_one_entry⟩)
        = some (inf_adopted_request_log_new 1) ∧
      (g_object_new_adopted_user 1 (some log_1_one_entry)).map inf_adopted_user_get_request_log
        = some (some (inf_adopted_request_log_new 1)) ∧
      inf_adopted_request_log_new 1 ≠ log_1_one_entry := by
  decide

/-- C5 as stated fails: user 1 is at `{1:5}`; after `inf_adopted_user_set_vector`
with `{1:3}`, and also after setting the "vector" property to `{1:3}`, its
component at id 1 is 3, below the 5 it was before. -/
theorem set_vector_moves_backward :
    inf_adopted_user_get_component user_1_at_5 1 = 5 ∧
      inf_adopted_user_get_component
        (inf_adopted_user_set_vector user_1_at_5 (some vector_1_3)) 1 = 3 ∧
      (inf_adopted_user_set_property user_1_at_5 PROP_VECTOR (.boxed (some vector_1_3))).map
        (fun u => inf_adopted_user_get_component u 1) = some 3 := by
  decide

/-- C5 amended: `inf_adopted_user_set_vector` with a vector that is not
`NULL`, and setting the "vector" property to it, replace the user's vector by
the new one without comparing the two; afterwards
`inf_adopted_user_get_component(user, id)` is the component of the new vector
at `id` (0 for id 0), so it is not smaller than before exactly when `id` is 0
or the new vector's component at `id` is not smaller than the user's current
one. -/
theorem vector_update_forward (user : InfAdoptedUser) (vec : InfAdoptedStateVector)
    (id : Nat) :
    inf_adopted_user_set_vector user (some vec) = ⟨user.id, some vec, user.log⟩ ∧
      inf_adopted_user_set_property user PROP_VECTOR (.boxed (some vec))
        = some ⟨user.id, some vec, user.log⟩ ∧
      inf_adopted_user_get_component ⟨user.id, some vec, user.log⟩ id
        = (if id = 0 then 0 else vec.get id) ∧
      (inf_adopted_user_get_component user id
          ≤ inf_adopted_user_get_component ⟨user.id, some vec, user.log⟩ id ↔
        id = 0 ∨ inf_adopted_state_vector_get user.vector id ≤ vec.get id) := by
  refine ⟨rfl, ?_, rfl, ?_⟩
  · simp [inf_adopted_user_set_property, g_value_dup_boxed]
  · unfold inf_adopted_user_get_component
    by_cases hid : id = 0
    · simp [hid]
    · simp [hid, inf_adopted_state_vector_get]

/-- C5 amended at concrete users: user 1 at `{1:3}` set to `{1:5}` holds
`{1:5}` and its component at id 1 has not decreased; user 1 at `{1:5}` set to
`{1:3}` holds `{1:3}` and its component at id 1 has decreased. -/
theorem vector_update_forward_witness :
    inf_adopted_user_set_vector ⟨1, some vector_1_3, none⟩ (some vector_1_5)
        = ⟨1, some vector_1_5, none⟩ ∧
      inf_adopted_user_get_component ⟨1, some vector_1_3, none⟩ 1
        ≤ inf_adopted_user_get_component ⟨1, some vector_1_5, none⟩ 1 ∧
      ¬ (inf_adopted_user_get_component ⟨1, some vector_1_5, none⟩ 1
        ≤ inf_adopted_user_get_component ⟨1, some vector_1_3, none⟩ 1) :=
  ⟨(vector_update_forward ⟨1, some vector_1_3, none⟩ vector_1_5 1).1,
    (vector_update_forward ⟨1, some vector_1_3, none⟩ vector_1_5 1).2.2.2.mpr
      (Or.inr (by decide)),
    fun h => absurd ((vector_update_forward ⟨1, some vector_1_5, none⟩ vector_1_3 1).2.2.2.mp h)
      (by decide)⟩

/-- C6: every constructed user, with or without a supplied log, holds a
request log whose user id is the id of the user. -/
theorem constructed_log_is_own (uid : Nat) (request_log : Option InfAdoptedRequestLog)
    (user : InfAdoptedUser) (h : g_object_new_adopted_user uid request_log = some user) :
    ∃ log, inf_adopted_user_get_request_log user = some log ∧
      inf_adopted_request_log_get_user_id log = inf_user_get_id user := by
  unfold g_object_new_adopted_user at h
  rw [Option.map_eq_some'] at h
  obtain ⟨before, _, hc⟩ := h
  refine ⟨inf_adopted_request_log_new (inf_user_get_id before), ?_, ?_⟩
  · rw [← hc]
    rfl
  · rw [← hc]
    rfl

/-- Witness of C6: user 1 constructed with a supplied log of user 1, and user 2
constructed without one. -/
theorem constructed_log_is_own_witness :
    (∃ log,
        inf_adopted_user_get_request_log ⟨1, some inf_adopted_state_vector_new,
            some (inf_adopted_request_log_new 1)⟩ = some log ∧
          inf_adopted_request_log_get_user_id log = 1) ∧
      ∃ log,
        inf_adopted_user_get_request_log ⟨2, some inf_adopted_state_vector_new,
            some (inf_adopted_request_log_new 2)⟩ = some log ∧
          inf_adopted_request_log_get_user_id log = 2 :=
  ⟨constructed_log_is_own 1 (some log_1_one_entry) _ (by decide),
    constructed_log_is_own 2 none _ (by decide)⟩

/-! ## Theorems: the causal order -/

/-- A component that the lookup finds is a member of the component list. -/
theorem lookup_some_mem (l : List (Nat × Nat)) (k v : Nat) (h : l.lookup k = some v) :
    (k, v) ∈ l := by
  obtain ⟨l₁, l₂, hl, _⟩ := List.lookup_eq_some_iff.mp h
  rw [hl]
  simp

/-- The boolean test decides the component-wise order. -/
theorem leb_iff_components (a b : InfAdoptedStateVector) :
    a.leb b = true ↔ ∀ id, a.get id ≤ b.get id := by
  unfold InfAdoptedStateVector.leb
  rw [List.all_eq_true]
  constructor
  · intro hall id
    cases hk : a.components.lookup id with
    | none => simp [InfAdoptedStateVector.get, hk]
    | some v => simpa using hall (id, v) (lookup_some_mem _ _ _ hk)
  · intro h c _
    simpa using h c.1

/-- The relation induced by `compare` holds exactly when the boolean test
succeeds. -/
theorem le_iff_leb (a b : InfAdoptedStateVector) : a.le b ↔ a.leb b = true := by
  unfold InfAdoptedStateVector.le InfAdoptedStateVector.compare
  cases a.leb b <;> cases b.leb a <;> simp

/-- The result `equal` of `compare` means that both boolean tests succeed. -/
theorem compare_equal_iff (a b : InfAdoptedStateVector) :
    a.compare b = .equal ↔ a.leb b = true ∧ b.leb a = true := by
  unfold InfAdoptedStateVector.compare
  cases a.leb b <;> cases b.leb a <;> simp

/-- C8: the relation `A ≤ B` induced by `compare` is the component-wise order
(absent components counting as 0), and it is reflexive, antisymmetric (two
vectors related both ways compare `equal` and agree on every component) and
transitive. -/
theorem compare_is_partial_order :
    (∀ a b : InfAdoptedStateVector, a.le b ↔ ∀ id, a.get id ≤ b.get id) ∧
      (∀ a : InfAdoptedStateVector, a.le a) ∧
      (∀ a b : InfAdoptedStateVector, a.le b → b.le a →
        a.compare b = .equal ∧ ∀ id, a.get id = b.get id) ∧
      (∀ a b c : InfAdoptedStateVector, a.le b → b.le c → a.le c) := by
  have key : ∀ a b : InfAdoptedStateVector, a.le b ↔ ∀ id, a.get id ≤ b.get id :=
    fun a b => (le_iff_leb a b).trans (leb_iff_components a b)
  refine ⟨key, ?_, ?_, ?_⟩
  · intro a
    exact (key a a).mpr (fun _ => Nat.le_refl _)
  · intro a b hab hba
    refine ⟨(compare_equal_iff a b).mpr ⟨(le_iff_leb a b).mp hab, (le_iff_leb b a).mp hba⟩, ?_⟩
    intro id
    exact Nat.le_antisymm ((key a b).mp hab id) ((key b a).mp hba id)
  · intro a b c hab hbc
    exact (key a c).mpr (fun id => Nat.le_trans ((key a b).mp hab id) ((key b c).mp hbc id))

/-- C8 at concrete vectors: `{1:3} ≤ {1:5}`, not the other way round, and the
empty vector and `{1:0}` are related both ways and compare `equal`. -/
theorem compare_is_partial_order_witness :
    vector_1_3.le vector_1_5 ∧ ¬ vector_1_5.le vector_1_3 ∧
      (inf_adopted_state_vector_new.compare ⟨[(1, 0)]⟩ = .equal ∧
        ∀ id, inf_adopted_state_vector_new.get id = InfAdoptedStateVector.get ⟨[(1, 0)]⟩ id) :=
  ⟨by decide, by decide,
    compare_is_partial_order.2.2.1 inf_adopted_state_vector_new ⟨[(1, 0)]⟩ (by decide) (by decide)⟩

/-! ## Theorems: the request log -/

/-- An append succeeds exactly for the next request of the log's author. -/
theorem append_ok_iff (log : InfAdoptedRequestLog) (request : InfAdoptedRequest) :
    (log.append request).2 = .ok () ↔
      request.author = log.user_id ∧ request.index = log.next_index := by
  unfold InfAdoptedRequestLog.append
  by_cases h : request.author = log.user_id ∧ request.index = log.next_index
  · simp [h]
  · simp [h]

/-- An append that succeeded moved the next index one further and kept the
log's user. -/
theorem append_next_index (log : InfAdoptedRequestLog) (request : InfAdoptedRequest)
    (h : request.author = log.user_id ∧ request.index = log.next_index) :
    (log.append request).1.next_index = log.next_index + 1 ∧
      (log.append request).1.user_id = log.user_id := by
  simp [InfAdoptedRequestLog.append, h, InfAdoptedRequestLog.next_index, Nat.add_assoc]

/-- C9: an append succeeds only for the immediate next index of the log's
author (a request of that author whose index is the log's next index); an
append of any other request fails with `SequenceGapError` and leaves the log
as it was; and once a request was appended, a further append for the same
index, measured on the request's own author or on the log's author, fails
with `SequenceGapError` and leaves the log as it was. -/
theorem append_rejects_repeated_index (log : InfAdoptedRequestLog)
    (request again : InfAdoptedRequest) :
    ((log.append request).2 = .ok () ↔
        request.author = log.user_id ∧ request.vector.get log.user_id = log.next_index) ∧
      (¬ (request.author = log.user_id ∧ request.vector.get log.user_id = log.next_index) →
        log.append request = (log, .error .SequenceGapError)) ∧
      ((log.append request).2 = .ok () →
        (again.index = request.index ∨ again.vector.get log.user_id = request.index) →
        (log.append request).1.append again
          = ((log.append request).1, .error .SequenceGapError)) := by
  have hiff : (log.append request).2 = .ok () ↔
      request.author = log.user_id ∧ request.vector.get log.user_id = log.next_index := by
    rw [append_ok_iff]
    constructor
    · rintro ⟨ha, hi⟩
      refine ⟨ha, ?_⟩
      rw [← ha]
      exact hi
    · rintro ⟨ha, hi⟩
      refine ⟨ha, ?_⟩
      unfold InfAdoptedRequest.index
      rw [ha]
      exact hi
  refine ⟨hiff, ?_, ?_⟩
  · intro hne
    have hnot : (log.append request).2 ≠ .ok () := fun hok => hne (hiff.mp hok)
    rw [Ne, append_ok_iff] at hnot
    simp [InfAdoptedRequestLog.append, hnot]
  · intro hok hsame
    have hidx := (append_ok_iff log request).mp hok
    obtain ⟨hnext, huser⟩ := append_next_index log request hidx
    have hne : ¬ (again.author = (log.append request).1.user_id ∧
        again.index = (log.append request).1.next_index) := by
      rintro ⟨ha, hi⟩
      rw [hnext] at hi
      rw [huser] at ha
      have hagain : again.index = request.index := by
        rcases hsame with h | h
        · exact h
        · unfold InfAdoptedRequest.index
          rw [ha]
          exact h
      rw [hagain, hidx.2] at hi
      exact Nat.ne_of_lt (Nat.lt_succ_self _) hi
    generalize log.append request = result at hne
    simp [InfAdoptedRequestLog.append, hne]

/-- C9 at a concrete log: the first request of user 1 is appended to the new
log of user 1 and then appended once more; a request of user 2 is not
appended to the log of user 1. -/
theorem append_rejects_repeated_index_witness :
    ((inf_adopted_request_log_new 1).append request_1_0).1 = log_1_one_entry ∧
      log_1_one_entry.append request_1_0 = (log_1_one_entry, .error .SequenceGapError) ∧
      (inf_adopted_request_log_new 1).append ⟨2, ⟨[(1, 7)]⟩, .Do, 0⟩
        = (inf_adopted_request_log_new 1, .error .SequenceGapError) :=
  ⟨rfl, (append_rejects_repeated_index (inf_adopted_request_log_new 1) request_1_0
    request_1_0).2.2 rfl (Or.inl rfl),
    (append_rejects_repeated_index (inf_adopted_request_log_new 1) ⟨2, ⟨[(1, 7)]⟩, .Do, 0⟩
      request_1_0).2.1 (by decide)⟩

/-- A request that was just appended is returned by `get` at its index. -/
theorem get_appended (log : InfAdoptedRequestLog) (request : InfAdoptedRequest)
    (h : (log.append request).2 = .ok ()) :
    (log.append request).1.get request.index = .ok request := by
  have hidx := (append_ok_iff log request).mp h
  simp [InfAdoptedRequestLog.append, hidx, InfAdoptedRequestLog.get,
    InfAdoptedRequestLog.next_index]

/-- Pruning keeps what `get` returned at the indices that are not below the
pruning index. -/
theorem get_prune_of_le (log : InfAdoptedRequestLog) (k i : Nat) (request : InfAdoptedRequest)
    (hki : k ≤ i) (hget : log.get i = .ok request) :
    (log.prune k).get i = .ok request := by
  unfold InfAdoptedRequestLog.get at hget
  split at hget
  · simp at hget
  · rename_i hbegin
    have hsome : log.entries[i - log.begin]? = some request := by
      cases hg : log.entries[i - log.begin]? with
      | none => simp [hg] at hget
      | some r =>
        simp only [hg, Except.ok.injEq] at hget
        rw [hget]
    have hlt : i - log.begin < log.entries.length := by
      rw [List.getElem?_eq_some_iff] at hsome
      exact hsome.1
    have hmin : min (k - log.begin) log.entries.length = k - log.begin := by
      apply Nat.min_eq_left
      omega
    unfold InfAdoptedRequestLog.get InfAdoptedRequestLog.prune
    simp only [hmin]
    have hnot : ¬ i < log.begin + (k - log.begin) := by omega
    rw [if_neg hnot, List.getElem?_drop]
    have hidx : k - log.begin + (i - (log.begin + (k - log.begin))) = i - log.begin := by
      omega
    rw [hidx, hsome]

/-- C10: after pruning a log to `k`, `get(i)` fails with `NotAvailableError`
for every `i < k`; for every `i ≥ k`, whatever `get(i)` returned before the
pruning it still returns; in particular a request that was appended at an
index not below `k` is returned at that index after the pruning. -/
theorem prune_is_safe (log : InfAdoptedRequestLog) (k i : Nat) :
    (i < k → ∃ pruned, (log.prune k).get i = .error (.NotAvailableError pruned)) ∧
      (k ≤ i → ∀ request, log.get i = .ok request → (log.prune k).get i = .ok request) ∧
      (∀ request : InfAdoptedRequest, (log.append request).2 = .ok () → request.index = i →
        k ≤ i → ((log.append request).1.prune k).get i = .ok request) := by
  refine ⟨?_, ?_, ?_⟩
  · intro hik
    unfold InfAdoptedRequestLog.get
    split
    · exact ⟨true, rfl⟩
    · rename_i hbegin
      refine ⟨false, ?_⟩
      have hlen : log.entries.length ≤ k - log.begin := by
        simp only [InfAdoptedRequestLog.prune] at hbegin
        omega
      have hnil : (log.prune k).entries = [] := by
        simp only [InfAdoptedRequestLog.prune]
        exact List.drop_eq_nil_of_le hlen
      simp [hnil]
  · intro hki request hget
    exact get_prune_of_le log k i request hki hget
  · intro request hok hidx hki
    have hget := get_appended log request hok
    rw [hidx] at hget
    exact get_prune_of_le _ k i request hki hget

/-- C10 at a concrete log: the log of user 1 with its first two requests is
pruned to 1; index 0 is gone, index 1 still holds the second request. -/
theorem prune_is_safe_witness :
    (∃ pruned, ((log_1_one_entry.append request_1_1).1.prune 1).get 0
        = .error (.NotAvailableError pruned)) ∧
      ((log_1_one_entry.append request_1_1).1.prune 1).get 1 = .ok request_1_1 :=
  ⟨(prune_is_safe (log_1_one_entry.append request_1_1).1 1 0).1 (by decide),
    (prune_is_safe log_1_one_entry 1 1).2.2 request_1_1 rfl rfl (Nat.le_refl 1)⟩

/-! ## Theorems: communication groups and methods -/

/-- C11: in the Central method with the hub A and the member connections B
and C, a message that B sent to the group is received by the hub with the
scope `Group` (a member's group send enqueues it towards the hub with that
scope), and the hub's following `sendAll` that leaves out B appends the
message to the queue of C and changes no other queue, the one of B included,
and nothing in flight. -/
theorem central_hub_relays_to_others (hub : InfCommunicationGroup) (b c xml : Nat)
    (hvariant : hub.method.variant = .Central) (hmembers : hub.method.members = [b, c])
    (hbc : b ≠ c) :
    (∀ (spoke : InfCommunicationMethod) (a : Nat), a ∈ spoke.members →
        (inf_communication_method_send_all spoke xml).queued a
          = spoke.queued a ++ [⟨xml, .Group⟩]) ∧
      inf_communication_method_received hub.method b ⟨xml, .Group⟩ = .Group ∧
      (inf_communication_group_send_group_message hub (some b) xml).method.queued c
        = hub.method.queued c ++ [⟨xml, .Group⟩] ∧
      (∀ x, x ≠ c →
        (inf_communication_group_send_group_message hub (some b) xml).method.queued x
          = hub.method.queued x) ∧
      (∀ x, (inf_communication_group_send_group_message hub (some b) xml).method.in_flight x
          = hub.method.in_flight x) := by
  refine ⟨?_, ?_, ?_, ?_, ?_⟩
  · intro spoke a ha
    simp [inf_communication_method_send_all, sendAll, ha]
  · simp [inf_communication_method_received, hvariant]
  · have hcb : c ≠ b := fun h => hbc h.symm
    simp [inf_communication_group_send_group_message, sendAll, hmembers, hcb]
  · intro x hx
    by_cases hxb : x = b
    · simp [inf_communication_group_send_group_message, sendAll, hmembers, hxb]
    · simp [inf_communication_group_send_group_message, sendAll, hmembers, hxb, hx]
  · intro x
    rfl

/-- C11 at the scenario: B (2) sends message 9 to the group, which goes to the
hub A (1); the hub, with the members B (2) and C (3), receives it with scope
`Group` and relays it leaving out B: C's queue gains the message, B's queue is
as before. -/
theorem central_hub_relays_to_others_witness :
    (inf_communication_method_send_all spoke_method 9).queued 1 = [⟨9, .Group⟩] ∧
      inf_communication_method_received hub_method 2 ⟨9, .Group⟩ = .Group ∧
      (inf_communication_group_send_group_message ⟨"session", hub_method⟩ (some 2) 9).method.queued
          3 = [⟨6, .Local⟩, ⟨9, .Group⟩] ∧
      (inf_communication_group_send_group_message ⟨"session", hub_method⟩ (some 2) 9).method.queued
          2 = [⟨5, .Local⟩] :=
  have h := central_hub_relays_to_others ⟨"session", hub_method⟩ 2 3 9 rfl rfl (by decide)
  ⟨h.1 spoke_method 1 (by decide), h.2.1, h.2.2.1, h.2.2.2.1 2 (by decide)⟩

/-- C12: removing a member from a group, and cancelling its messages, leaves
the queue of that connection empty, leaves the queue of every other connection
as it was, and retracts nothing that is in flight; after the removal the
connection is no member and every other connection is a member exactly if it
was one. -/
theorem remove_member_cancels_only_its_queue (group : InfCommunicationGroup)
    (connection : Nat) :
    (inf_communication_group_remove_member group connection).method.queued connection = [] ∧
      (inf_communication_group_cancel_messages group connection).method.queued connection = [] ∧
      (∀ other, other ≠ connection →
        (inf_communication_group_remove_member group connection).method.queued other
            = group.method.queued other ∧
          (inf_communication_group_cancel_messages group connection).method.queued other
            = group.method.queued other) ∧
      (∀ c,
        (inf_communication_group_remove_member group connection).method.in_flight c
            = group.method.in_flight c ∧
          (inf_communication_group_cancel_messages group connection).method.in_flight c
            = group.method.in_flight c) ∧
      inf_communication_group_is_member
          (inf_communication_group_remove_member group connection) connection = false ∧
      (∀ other, other ≠ connection →
        inf_communication_group_is_member
            (inf_communication_group_remove_member group connection) other
          = inf_communication_group_is_member group other) ∧
      (∀ c, inf_communication_group_is_member
            (inf_communication_group_cancel_messages group connection) c
          = inf_communication_group_is_member group c) := by
  refine ⟨?_, ?_, ?_, ?_, ?_, ?_, ?_⟩
  · simp [inf_communication_group_remove_member, inf_communication_method_remove_member,
      inf_communication_method_cancel_messages]
  · simp [inf_communication_group_cancel_messages, inf_communication_method_cancel_messages]
  · intro other hother
    simp [inf_communication_group_remove_member, inf_communication_method_remove_member,
      inf_communication_group_cancel_messages, inf_communication_method_cancel_messages, hother]
  · intro c
    exact ⟨rfl, rfl⟩
  · simp [inf_communication_group_is_member, inf_communication_method_is_member,
      inf_communication_group_remove_member, inf_communication_method_remove_member,
      inf_communication_method_cancel_messages]
  · intro other hother
    simp [inf_communication_group_is_member, inf_communication_method_is_member,
      inf_communication_group_remove_member, inf_communication_method_remove_member,
      inf_communication_method_cancel_messages, hother]
  · intro c
    rfl

/-- C12 at the scenario: B (2) is removed from the hub's group; B's queue is
empty and B is no member, C's queue and C's message in flight are as before. -/
theorem remove_member_cancels_only_its_queue_witness :
    hub_method.queued 2 = [⟨5, .Local⟩] ∧
      (inf_communication_group_remove_member ⟨"session", hub_method⟩ 2).method.queued 2 = [] ∧
      (inf_communication_group_remove_member ⟨"session", hub_method⟩ 2).method.queued 3
        = [⟨6, .Local⟩] ∧
      (inf_communication_group_remove_member ⟨"session", hub_method⟩ 2).method.in_flight 3
        = [⟨4, .Local⟩] ∧
      inf_communication_group_is_member
        (inf_communication_group_remove_member ⟨"session", hub_method⟩ 2) 2 = false :=
  have h := remove_member_cancels_only_its_queue ⟨"session", hub_method⟩ 2
  ⟨rfl, h.1, (h.2.2.1 3 (by decide)).1, (h.2.2.2.1 3).1, h.2.2.2.2.1⟩

/-! ## Theorems: InfGtkCertificateDialog -/

set_option maxRecDepth 100000

/-- The expiry condition is the comparison over the integers when the
difference is representable. -/
theorem expires_soon_eq_of_representable (repr : TimeRepresentation) (now e : Int)
    (h : expiry_difference_representable repr now e) :
    pinned_certificate_expires_soon repr now e
      = decide (e ≠ -1 ∧ now > e - 2592000) := by
  cases repr with
  | signed32 =>
    simp only [expiry_difference_representable,
      INF_GTK_CERTIFICATE_DIALOG_EXPIRATION_TOLERANCE] at h
    norm_num at h
    obtain ⟨h1, h2, h3, h4⟩ := h
    simp only [pinned_certificate_expires_soon, INF_GTK_CERTIFICATE_DIALOG_EXPIRATION_TOLERANCE]
    norm_num
    have e1 : now % 4294967296 = now := by omega
    have e2 : (e - 2592000) % 4294967296 = e - 2592000 := by omega
    rw [e1, e2]
  | signed64 =>
    simp only [expiry_difference_representable,
      INF_GTK_CERTIFICATE_DIALOG_EXPIRATION_TOLERANCE] at h
    norm_num at h
    obtain ⟨h1, h2⟩ := h
    simp only [pinned_certificate_expires_soon, INF_GTK_CERTIFICATE_DIALOG_EXPIRATION_TOLERANCE,
      wrap_signed]
    norm_num
    have e2 : (e - 2592000 + 9223372036854775808) % 18446744073709551616 - 9223372036854775808
        = e - 2592000 := by omega
    rw [e2]

/-- A value in which a flag bit is set is not 0. -/
theorem flags_ne_zero_of_and_ne_zero (value mask : Nat) (h : value &&& mask ≠ 0) :
    value ≠ 0 := by
  intro hz
  rw [hz] at h
  simp at h

/-- C13 as stated fails.  With a 32 bit `time_t`, for a pinned certificate
that expired 1000 seconds after the epoch and the current time 1700000000, the
expiration time is known and `now > e - 2592000` holds over the integers, but
the dialog shows the "unexpected certificate" warning; with a 64 bit `time_t`
the same happens for the least time value. -/
theorem expiry_check_wraps :
    ((1000 : Int) ≠ -1 ∧ (1700000000 : Int) > 1000 - 2592000) ∧
      (inf_gtk_certificate_dialog_renew_info sample_verify_flags .signed32 1700000000
          ⟨4, some "host", 1000, "host", none, none⟩).info
        = some unexpected_certificate_info ∧
      (-(2 : Int) ^ 63 ≠ -1 ∧ (1700000000 : Int) > -(2 : Int) ^ 63 - 2592000) ∧
      (inf_gtk_certificate_dialog_renew_info sample_verify_flags .signed64 1700000000
          ⟨4, some "host", -(2 : Int) ^ 63, "host", none, none⟩).info
        = some unexpected_certificate_info ∧
      unexpected_certificate_info ≠ new_certificate_info := by
  refine ⟨by decide, by decide, by decide, by decide, by decide⟩

/-- C13 amended: when the NOT_PINNED flag is set and the host name is not
`NULL`, for every time value for which `e - 2592000` is representable in the
type the subtraction is computed in, the info text is the "new certificate"
message exactly when the expiration time is known (not -1) and
`now > e - 2592000` over the integers, and the "unexpected certificate"
warning otherwise. -/
theorem not_pinned_message_choice (flags : InfCertificateVerifyFlags)
    (repr : TimeRepresentation) (now : Int) (dialog : InfGtkCertificateDialog)
    (hostname : String) (hhost : dialog.hostname = some hostname)
    (hflag : dialog.verify_flags &&& flags.NOT_PINNED ≠ 0)
    (hrange : expiry_difference_representable repr now dialog.pinned_expiration_time) :
    (inf_gtk_certificate_dialog_renew_info flags repr now dialog).info
      = some (if dialog.pinned_expiration_time ≠ -1 ∧
            now > dialog.pinned_expiration_time - 2592000 then
          new_certificate_info
        else unexpected_certificate_info) := by
  have hnz := flags_ne_zero_of_and_ne_zero _ _ hflag
  unfold inf_gtk_certificate_dialog_renew_info
  rw [hhost]
  simp only [hnz, hflag, ne_eq, not_false_eq_true, if_true,
    expires_soon_eq_of_representable repr now _ hrange]
  by_cases hc : dialog.pinned_expiration_time ≠ -1 ∧
      now > dialog.pinned_expiration_time - 2592000
  · simp [hc]
  · simp [hc]

/-- Witness of C13 amended: with a 64 bit `time_t`, a pinned certificate that
expires in 10 days (864000 seconds) gives the "new certificate" message, one
that expires in 40 days the "unexpected certificate" warning. -/
theorem not_pinned_message_choice_witness :
    (inf_gtk_certificate_dialog_renew_info sample_verify_flags .signed64 1700000000
          ⟨4, some "host", 1700864000, "host", none, none⟩).info
        = some (if (1700864000 : Int) ≠ -1 ∧ (1700000000 : Int) > 1700864000 - 2592000 then
            new_certificate_info
          else unexpected_certificate_info) ∧
      (inf_gtk_certificate_dialog_renew_info sample_verify_flags .signed32 1700000000
          ⟨4, some "host", 1703456000, "host", none, none⟩).info
        = some (if (1703456000 : Int) ≠ -1 ∧ (1700000000 : Int) > 1703456000 - 2592000 then
            new_certificate_info
          else unexpected_certificate_info) :=
  ⟨not_pinned_message_choice sample_verify_flags .signed64 1700000000
      ⟨4, some "host", 1700864000, "host", none, none⟩ "host" rfl (by decide) (by decide),
    not_pinned_message_choice sample_verify_flags .signed32 1700000000
      ⟨4, some "host", 1703456000, "host", none, none⟩ "host" rfl (by decide) (by decide)⟩

/-- C14 as stated fails: with NOT_PINNED and ISSUER_NOT_KNOWN both set (6),
the info text is the "unexpected certificate" warning alone and the message of
ISSUER_NOT_KNOWN does not occur in it; with NOT_PINNED and HOSTNAME_MISMATCH
both set (5) the message of HOSTNAME_MISMATCH does not occur in it; with
ISSUER_NOT_KNOWN alone (2) its message does occur. -/
theorem not_pinned_hides_other_reasons :
    (6 : Nat) &&& sample_verify_flags.ISSUER_NOT_KNOWN ≠ 0 ∧
      (inf_gtk_certificate_dialog_renew_info sample_verify_flags .signed64 1700000000
          ⟨6, some "host", 2000000000, "other", none, none⟩).info
        = some unexpected_certificate_info ∧
      ¬ label_contains
          (inf_gtk_certificate_dialog_renew_info sample_verify_flags .signed64 1700000000
            ⟨6, some "host", 2000000000, "other", none, none⟩).info
          issuer_not_known_text ∧
      (5 : Nat) &&& sample_verify_flags.HOSTNAME_MISMATCH ≠ 0 ∧
      ¬ label_contains
          (inf_gtk_certificate_dialog_renew_info sample_verify_flags .signed64 1700000000
            ⟨5, some "host", 2000000000, "other", none, none⟩).info
          (hostname_mismatch_text "host" "other") ∧
      label_contains
          (inf_gtk_certificate_dialog_renew_info sample_verify_flags .signed64 1700000000
            ⟨2, some "host", 2000000000, "other", none, none⟩).info
          issuer_not_known_text := by
  refine ⟨by decide, by decide, by decide, by decide, by decide, by decide⟩

/-- A text occurs in every text that ends with it. -/
theorem contains_text_append_right (text message : String) :
    contains_text (text ++ message) message := by
  unfold contains_text
  rw [String.data_append]
  exact (List.suffix_append _ _).isInfix

/-- A text that occurs in a text occurs in every extension of it. -/
theorem contains_text_append_left (text more message : String)
    (h : contains_text text message) : contains_text (text ++ more) message := by
  unfold contains_text at *
  rw [String.data_append]
  exact h.trans (List.prefix_append _ _).isInfix

/-- The paragraph separator keeps what the text contains. -/
theorem contains_text_separator (text message : String) (h : contains_text text message) :
    contains_text (append_separator text) message := by
  unfold append_separator
  split
  · exact contains_text_append_left _ _ _ h
  · exact h

/-- C14 amended: for every non-zero verify_flags and host name that is not
`NULL`, when NOT_PINNED is set the info text is the paragraph of NOT_PINNED
alone (the "new certificate" or the "unexpected certificate" message with its
explanation); when NOT_PINNED is not set the info text contains the sentence
that the certificate cannot be verified automatically and, for each of
ISSUER_NOT_KNOWN and HOSTNAME_MISMATCH that is set, the message of that
flag. -/
theorem info_text_presents_reasons (flags : InfCertificateVerifyFlags)
    (repr : TimeRepresentation) (now : Int) (dialog : InfGtkCertificateDialog)
    (hostname : String) (hhost : dialog.hostname = some hostname)
    (hnz : dialog.verify_flags ≠ 0) :
    (dialog.verify_flags &&& flags.NOT_PINNED ≠ 0 →
        ((inf_gtk_certificate_dialog_renew_info flags repr now dialog).info
              = some new_certificate_info ∧
            contains_text new_certificate_info new_certificate_ctext) ∨
          ((inf_gtk_certificate_dialog_renew_info flags repr now dialog).info
              = some unexpected_certificate_info ∧
            contains_text unexpected_certificate_info unexpected_certificate_ctext)) ∧
      (dialog.verify_flags &&& flags.NOT_PINNED = 0 →
        label_contains (inf_gtk_certificate_dialog_renew_info flags repr now dialog).info
            cannot_verify_text ∧
          (dialog.verify_flags &&& flags.ISSUER_NOT_KNOWN ≠ 0 →
            label_contains (inf_gtk_certificate_dialog_renew_info flags repr now dialog).info
              issuer_not_known_text) ∧
          (dialog.verify_flags &&& flags.HOSTNAME_MISMATCH ≠ 0 →
            label_contains (inf_gtk_certificate_dialog_renew_info flags repr now dialog).info
              (hostname_mismatch_text hostname dialog.own_certificate_hostname))) := by
  constructor
  · intro hpin
    unfold inf_gtk_certificate_dialog_renew_info
    rw [hhost]
    simp only [hnz, hpin, ne_eq, not_false_eq_true, if_true]
    cases pinned_certificate_expires_soon repr now dialog.pinned_expiration_time
    · right
      exact ⟨by simp, by decide⟩
    · left
      exact ⟨by simp, by decide⟩
  · intro hpin
    have h0 : contains_text ("" ++ cannot_verify_text) cannot_verify_text :=
      contains_text_append_right _ _
    unfold inf_gtk_certificate_dialog_renew_info
    rw [hhost]
    simp only [hnz, hpin, ne_eq, not_false_eq_true, if_true, not_true_eq_false, if_false,
      label_contains]
    by_cases hiss : dialog.verify_flags &&& flags.ISSUER_NOT_KNOWN = 0
    · by_cases hmis : dialog.verify_flags &&& flags.HOSTNAME_MISMATCH = 0
      · simp only [hiss, hmis, not_true_eq_false, if_false]
        exact ⟨h0, fun h => h.elim, fun h => h.elim⟩
      · simp only [hiss, hmis, not_true_eq_false, not_false_eq_true, if_true, if_false]
        exact ⟨contains_text_append_left _ _ _ (contains_text_separator _ _ h0),
          fun h => h.elim, fun _ => contains_text_append_right _ _⟩
    · have h1 : contains_text (append_separator ("" ++ cannot_verify_text)
          ++ issuer_not_known_text) cannot_verify_text :=
        contains_text_append_left _ _ _ (contains_text_separator _ _ h0)
      have h2 : contains_text (append_separator ("" ++ cannot_verify_text)
          ++ issuer_not_known_text) issuer_not_known_text :=
        contains_text_append_right _ _
      by_cases hmis : dialog.verify_flags &&& flags.HOSTNAME_MISMATCH = 0
      · simp only [hiss, hmis, not_true_eq_false, not_false_eq_true, if_true, if_false]
        exact ⟨h1, fun _ => h2, fun h => h.elim⟩
      · simp only [hiss, hmis, not_false_eq_true, if_true]
        exact ⟨contains_text_append_left _ _ _ (contains_text_separator _ _ h1),
          fun _ => contains_text_append_left _ _ _ (contains_text_separator _ _ h2),
          fun _ => contains_text_append_right _ _⟩

/-- Witness of C14 amended: with ISSUER_NOT_KNOWN and HOSTNAME_MISMATCH set (3)
and NOT_PINNED not set, the info text contains the messages of both flags. -/
theorem info_text_presents_reasons_witness :
    label_contains
        (inf_gtk_certificate_dialog_renew_info sample_verify_flags .signed64 1700000000
          ⟨3, some "host", 2000000000, "other", none, none⟩).info
        issuer_not_known_text ∧
      label_contains
        (inf_gtk_certificate_dialog_renew_info sample_verify_flags .signed64 1700000000
          ⟨3, some "host", 2000000000, "other", none, none⟩).info
        (hostname_mismatch_text "host" "other") :=
  have h := (info_text_presents_reasons sample_verify_flags .signed64 1700000000
    ⟨3, some "host", 2000000000, "other", none, none⟩ "host" rfl (by decide)).2 (by decide)
  ⟨h.2.1 (by decide), h.2.2 (by decide)⟩

/-! ## Theorems: InfGtkBrowserView -/

/-- C15, the code at a failing input: the explore requests 10 and 12 have lost
their row, 11 has not.  When the loop removes entry 0, the last entry (12)
takes its place and is never looked at, so the request 12 with its invalid
reference remains after the callback.  The same happens in the array of
browsers for a deleted top-level path. -/
theorem row_deleted_leaves_invalid_reference :
    (inf_gtk_browser_view_row_deleted_cb
        ⟨[], [⟨10, false⟩, ⟨11, true⟩, ⟨12, false⟩]⟩ 2).explore_requests
        = [⟨12, false⟩, ⟨11, true⟩] ∧
      (inf_gtk_browser_view_row_deleted_cb
        ⟨[⟨1, false⟩, ⟨2, false⟩], []⟩ 1).browsers = [⟨2, false⟩] := by
  constructor
  · simp [inf_gtk_browser_view_row_deleted_cb, row_deleted_explore_requests_loop,
      inf_gtk_browser_view_explore_request_removed, g_array_remove_index_fast]
  · simp [inf_gtk_browser_view_row_deleted_cb, row_deleted_browsers_loop,
      inf_gtk_browser_view_browser_removed, g_array_remove_index_fast]

/-- C17, the code at a failing input: for an explore request that is
initiated, not finished and has total 0, the divisor of `current * 100 / total`
is 0 and the data function does not return. -/
theorem progress_divides_by_zero :
    row_exploring_empty_directory.running_request = some ⟨false, true, 0, 0⟩ ∧
      exploration_percentage 0 0 = none ∧
      inf_gtk_browser_view_progress_data_func progress_renderer_initial
        row_exploring_empty_directory = none := by
  decide


/-- For a row with a running explore request the progress data function sets
the percentage of the request's counts, or of 0 and 1 before the request is
initiated. -/
theorem progress_of_running_request (renderer : ProgressRenderer) (row : BrowserModelRow)
    (request : InfcExploreRequest) (hreq : row.running_request = some request) :
    inf_gtk_browser_view_progress_data_func renderer row =
      (exploration_percentage (if request.initiated = false then 0 else request.current)
          (if request.initiated = false then 1 else request.total)).map
        (fun value => ⟨true, to_gint value, "Exploring..."⟩) := by
  unfold BrowserModelRow.running_request at hreq
  unfold inf_gtk_browser_view_progress_data_func
  cases hb : row.browser with
  | none => simp [hb] at hreq
  | some node =>
    simp only [hb] at hreq ⊢
    by_cases hsub : node.is_subdirectory = true
    · simp only [hsub, if_true] at hreq ⊢
      cases hr : node.explore_request with
      | none => simp [hr] at hreq
      | some found =>
        simp only [hr] at hreq ⊢
        by_cases hf : found.finished = false
        · simp only [hf, if_true, Option.some.injEq] at hreq ⊢
          subst hreq
          cases found.initiated
          · simp only [if_true]
            cases exploration_percentage 0 1 <;> rfl
          · simp only [Bool.true_eq_false, if_false]
            cases exploration_percentage found.current found.total <;> rfl
        · simp [hf] at hreq
    · simp [hsub] at hreq

/-- C18 as stated fails: for an unfinished, initiated request at 50000000 of
100000000 nodes the product `current * 100` wraps modulo 2^32 and the value
set is 7, while floor(100 * current / total) is 50. -/
theorem progress_value_wraps :
    row_exploring_large_directory.running_request
        = some ⟨false, true, 50000000, 100000000⟩ ∧
      inf_gtk_browser_view_progress_data_func progress_renderer_initial
        row_exploring_large_directory = some ⟨true, 7, "Exploring..."⟩ ∧
      (100 * 50000000 / 100000000 : Nat) = 50 := by
  decide

/-- C18 amended: for every unfinished explore request, the value set is 0
when the request is not yet initiated; when it is initiated with 32-bit
unsigned counts `current ≤ total` and `total > 0`, a value is set that lies
between 0 and 100, and that equals floor(100 * current / total) when
`current * 100` is below 2^32. -/
theorem progress_value_correct (renderer : ProgressRenderer) (row : BrowserModelRow)
    (request : InfcExploreRequest) (hreq : row.running_request = some request) :
    (request.initiated = false →
        inf_gtk_browser_view_progress_data_func renderer row
          = some ⟨true, 0, "Exploring..."⟩) ∧
      (request.initiated = true → request.current ≤ request.total → 0 < request.total →
        request.total < 2 ^ 32 →
        ∃ value : Nat,
          inf_gtk_browser_view_progress_data_func renderer row
              = some ⟨true, (value : Int), "Exploring..."⟩ ∧
            value ≤ 100 ∧
            (request.current * 100 < 2 ^ 32 →
              value = 100 * request.current / request.total)) := by
  rw [progress_of_running_request renderer row request hreq]
  constructor
  · intro hi
    simp only [hi, if_true]
    decide
  · intro hi hle hpos hlt
    have htot : request.total % 2 ^ 32 = request.total := Nat.mod_eq_of_lt hlt
    have hne : request.total % 2 ^ 32 ≠ 0 := by
      rw [htot]
      exact Nat.pos_iff_ne_zero.mp hpos
    have hval : request.current * 100 % 2 ^ 32 / request.total ≤ 100 := by
      by_cases hsmall : request.current * 100 < 2 ^ 32
      · rw [Nat.mod_eq_of_lt hsmall]
        apply Nat.div_le_of_le_mul
        nlinarith
      · apply Nat.div_le_of_le_mul
        have hmod : request.current * 100 % 2 ^ 32 < 2 ^ 32 := Nat.mod_lt _ (by norm_num)
        have hbig : 2 ^ 32 ≤ request.total * 100 := by
          have : request.current * 100 ≤ request.total * 100 := Nat.mul_le_mul_right _ hle
          omega
        nlinarith
    refine ⟨request.current * 100 % 2 ^ 32 / request.total, ?_, hval, ?_⟩
    · have hperc : exploration_percentage request.current request.total
          = some (request.current * 100 % 2 ^ 32 / request.total) := by
        unfold exploration_percentage
        rw [if_neg hne, htot]
      have hg : to_gint (request.current * 100 % 2 ^ 32 / request.total)
          = ((request.current * 100 % 2 ^ 32 / request.total : Nat) : Int) := by
        unfold to_gint wrap_signed
        generalize request.current * 100 % 2 ^ 32 / request.total = v at hval
        norm_num
        omega
      simp only [hi, Bool.true_eq_false, if_false, hperc, Option.map_some', hg]
    · intro hsmall
      rw [Nat.mod_eq_of_lt hsmall, Nat.mul_comm]

/-- Witness of C18 amended: at 1 of 3 nodes the value is 33. -/
theorem progress_value_correct_witness :
    ∃ value : Nat,
      inf_gtk_browser_view_progress_data_func progress_renderer_initial
          row_exploring_one_of_three = some ⟨true, (value : Int), "Exploring..."⟩ ∧
        value ≤ 100 ∧ ((1 : Nat) * 100 < 2 ^ 32 → value = 100 * 1 / 3) :=
  (progress_value_correct progress_renderer_initial row_exploring_one_of_three
    ⟨false, true, 1, 3⟩ (by decide)).2 rfl (by decide) (by decide) (by decide)


/-- A `guint` below 2^31 is converted to the `gint` of the same value. -/
theorem to_gint_of_lt (n : Nat) (h : n < 2 ^ 31) : to_gint n = (n : Int) := by
  unfold to_gint wrap_signed
  norm_num at h ⊢
  omega

/-- The search from index `k` on either finds nothing and returns -1, or
returns the index of the first entry that holds the request. -/
theorem explore_request_find_from_spec (rest : List InfGtkBrowserViewObject) (request k : Nat)
    (h : k + rest.length ≤ 2 ^ 31) :
    (explore_request_find_from rest request k = -1 ∧
        ∀ object ∈ rest, object.object ≠ request) ∨
      ∃ i : Nat, explore_request_find_from rest request k = ((k + i : Nat) : Int) ∧
        (rest[i]?).map (fun o : InfGtkBrowserViewObject => o.object) = some request ∧
        ∀ j : Nat, j < i → (rest[j]?).map (fun o : InfGtkBrowserViewObject => o.object) ≠ some request := by
  induction rest generalizing k with
  | nil =>
    left
    exact ⟨rfl, by simp⟩
  | cons object tail ih =>
    simp only [List.length_cons] at h
    by_cases hobj : object.object = request
    · right
      refine ⟨0, ?_, ?_, ?_⟩
      · simp only [explore_request_find_from, hobj, if_true, Nat.add_zero]
        exact to_gint_of_lt k (by omega)
      · simp [hobj]
      · intro j hj
        omega
    · have hk : k + 1 + tail.length ≤ 2 ^ 31 := by omega
      rcases ih (k + 1) hk with ⟨hfind, hall⟩ | ⟨i, hfind, hat, hbefore⟩
      · left
        refine ⟨?_, ?_⟩
        · simp only [explore_request_find_from, hobj, if_false]
          exact hfind
        · intro o ho
          rcases List.mem_cons.mp ho with rfl | hmem
          · exact hobj
          · exact hall o hmem
      · right
        refine ⟨i + 1, ?_, ?_, ?_⟩
        · simp only [explore_request_find_from, hobj, if_false]
          rw [hfind]
          congr 1
          omega
        · simpa using hat
        · intro j hj
          cases j with
          | zero => simp [hobj]
          | succ j' =>
            have := hbefore j' (by omega)
            simpa using this

/-- C19: for an array whose indices fit the `gint` result (at most 2^31
entries), `inf_gtk_browser_view_explore_request_find` returns -1 exactly when
no entry holds the request, and returns `i` exactly when `i` is the smallest
index whose entry holds the request. -/
theorem explore_request_find_correct (view : InfGtkBrowserView) (request : Nat)
    (hlen : view.explore_requests.length ≤ 2 ^ 31) :
    (inf_gtk_browser_view_explore_request_find view request = -1 ↔
        ∀ object ∈ view.explore_requests, object.object ≠ request) ∧
      ∀ i : Nat, inf_gtk_browser_view_explore_request_find view request = (i : Int) ↔
        ((view.explore_requests[i]?).map (fun o : InfGtkBrowserViewObject => o.object) = some request ∧
          ∀ j : Nat, j < i → (view.explore_requests[j]?).map (fun o : InfGtkBrowserViewObject => o.object) ≠ some request) := by
  unfold inf_gtk_browser_view_explore_request_find
  have hmem : ∀ i : Nat, (view.explore_requests[i]?).map (fun o : InfGtkBrowserViewObject => o.object) = some request →
      ∃ object ∈ view.explore_requests, object.object = request := by
    intro i hi
    rw [Option.map_eq_some'] at hi
    obtain ⟨o, ho, hobj⟩ := hi
    exact ⟨o, List.getElem?_mem ho, hobj⟩
  rcases explore_request_find_from_spec view.explore_requests request 0 (by omega) with
    ⟨hfind, hall⟩ | ⟨i0, hfind, hat, hbefore⟩
  · rw [hfind]
    refine ⟨⟨fun _ => hall, fun _ => rfl⟩, ?_⟩
    intro i
    constructor
    · intro h
      omega
    · rintro ⟨hi, _⟩
      obtain ⟨o, ho, hobj⟩ := hmem i hi
      exact absurd hobj (hall o ho)
  · rw [hfind]
    simp only [Nat.zero_add]
    refine ⟨⟨?_, ?_⟩, ?_⟩
    · intro h
      omega
    · intro hall
      obtain ⟨o, ho, hobj⟩ := hmem i0 hat
      exact absurd hobj (hall o ho)
    · intro i
      constructor
      · intro h
        have hi : i0 = i := by omega
        subst hi
        exact ⟨hat, hbefore⟩
      · rintro ⟨hi, hib⟩
        rcases Nat.lt_trichotomy i i0 with hlt | heq | hgt
        · exact absurd hi (hbefore i hlt)
        · rw [heq]
        · exact absurd hat (hib i0 hgt)

/-- Witness of C19: among the requests 10, 11, 12, 11 the request 11 is found
at index 1 and the request 13 is not found. -/
theorem explore_request_find_correct_witness :
    inf_gtk_browser_view_explore_request_find
        ⟨[], [⟨10, true⟩, ⟨11, true⟩, ⟨12, true⟩, ⟨11, true⟩]⟩ 11 = (1 : Nat) ∧
      inf_gtk_browser_view_explore_request_find
        ⟨[], [⟨10, true⟩, ⟨11, true⟩, ⟨12, true⟩, ⟨11, true⟩]⟩ 13 = -1 :=
  ⟨((explore_request_find_correct ⟨[], [⟨10, true⟩, ⟨11, true⟩, ⟨12, true⟩, ⟨11, true⟩]⟩ 11
      (by decide)).2 1).mpr (by decide),
    (explore_request_find_correct ⟨[], [⟨10, true⟩, ⟨11, true⟩, ⟨12, true⟩, ⟨11, true⟩]⟩ 13
      (by decide)).1.mpr (by decide)⟩

end Infinity
